import Mathlib

/-
Verification of the workflow-orchestration core of the pharmaceutical
supply-chain system (demand forecasting, route optimization, inventory
rebalancing, alert monitoring) against its specification.

The repository ships the Next.js frontend (`frontend/src/app/...`); the
FastAPI/LangGraph backend (orchestrator and the four agent steps) is
referenced by the README and the spec but its Python sources are not part
of the checked-in tree.  Definitions below therefore come in two kinds:
  * embeddings of the frontend TypeScript that is present
    (`alerts/page.tsx`, `routes/page.tsx`), and
  * models of the missing backend, each marked `Modelled from the spec:`
    and built from the spec's own wording (sections 4-7).
-/

namespace PharmaSpec

/-! ## Step outcomes and overall workflow status (spec section 4.1) -/

/-- Modelled from the spec: terminal outcome of a requested step after the
orchestrator applied the fallback policy (spec section 4.1 step 4: a requested
step ends `succeeded`, `succeeded (degraded)` or `failed`).  The backend
orchestrator (`agents/langgraph_workflow.py`) is not in the tree. -/
inductive StepOutcome
  | succeeded
  | degradedSucceeded
  | failed
deriving DecidableEq, Repr

/-- Modelled from the spec: the overall status of a `WorkflowResponse`.
`mixed` embeds the spec's intermediate status value (spelled "partial" in the
spec; that spelling is a reserved word in Lean). -/
inductive OverallStatus
  | success
  | mixed
  | failed
deriving DecidableEq, Repr

/-- A step outcome counts as failed exactly when it is `failed`;
`succeeded` and `degradedSucceeded` both count as success. -/
def StepOutcome.isFailed : StepOutcome → Bool
  | .failed => true
  | _ => false

/-- Modelled from the spec: result aggregation of the orchestrator
(spec section 4.1 step 5): `success` if all requested steps succeeded or
degraded-succeeded, `mixed` (the spec's intermediate status) if at least one
failed but at least one succeeded, `failed` if all failed. -/
def overallStatus (rs : List StepOutcome) : OverallStatus :=
  if rs.all (fun r => !r.isFailed) then .success
  else if rs.any (fun r => !r.isFailed) then .mixed
  else .failed

/-! ## Scheduling state machine (spec sections 4.1.3 and 5) -/

/-- Modelled from the spec: per-step status recorded in `WorkflowState`
(spec section 3: `pending | running | succeeded | failed | skipped`). -/
inductive StepStatus
  | pending
  | running
  | succeeded
  | failed
  | skipped
deriving DecidableEq, Repr

/-- Terminal statuses per the spec's glossary: `succeeded`, `failed`,
`skipped`. -/
def StepStatus.isTerminal : StepStatus → Bool
  | .succeeded => true
  | .failed => true
  | .skipped => true
  | _ => false

/-- Modelled from the spec: the orchestrator-owned scheduling view of one
workflow run, one status slot per step (spec section 3 `WorkflowState`;
the backend that owns it is not in the tree). -/
structure WorkflowSched where
  forecasting : StepStatus
  routing : StepStatus
  inventory : StepStatus
  monitoring : StepStatus
deriving DecidableEq, Repr

/-- Initial state: all requested steps `pending` (spec section 4.1 step 2). -/
def initSched : WorkflowSched :=
  ⟨.pending, .pending, .pending, .pending⟩

/-- Modelled from the spec: the transitions the orchestrator's scheduling
policy allows (spec sections 4.1.3 and 5).  Forecasting (Group A) and Route
Optimization (Group B) may start whenever pending; Inventory Matching and
Monitoring (Group C) may start, or be skipped by the skip-dependents fallback,
only once Forecasting is terminal.  A running step finishes in a terminal
status; an independent pending step may be skipped by the fallback policy. -/
inductive SchedStep : WorkflowSched → WorkflowSched → Prop
  | forecastStart (s : WorkflowSched) :
      s.forecasting = .pending → SchedStep s { s with forecasting := .running }
  | forecastFinish (s : WorkflowSched) (t : StepStatus) :
      s.forecasting = .running → t.isTerminal = true →
      SchedStep s { s with forecasting := t }
  | forecastSkip (s : WorkflowSched) :
      s.forecasting = .pending → SchedStep s { s with forecasting := .skipped }
  | routeStart (s : WorkflowSched) :
      s.routing = .pending → SchedStep s { s with routing := .running }
  | routeFinish (s : WorkflowSched) (t : StepStatus) :
      s.routing = .running → t.isTerminal = true →
      SchedStep s { s with routing := t }
  | routeSkip (s : WorkflowSched) :
      s.routing = .pending → SchedStep s { s with routing := .skipped }
  | inventoryStart (s : WorkflowSched) :
      s.inventory = .pending → s.forecasting.isTerminal = true →
      SchedStep s { s with inventory := .running }
  | inventoryFinish (s : WorkflowSched) (t : StepStatus) :
      s.inventory = .running → t.isTerminal = true →
      SchedStep s { s with inventory := t }
  | inventorySkip (s : WorkflowSched) :
      s.inventory = .pending → s.forecasting.isTerminal = true →
      SchedStep s { s with inventory := .skipped }
  | monitorStart (s : WorkflowSched) :
      s.monitoring = .pending → s.forecasting.isTerminal = true →
      SchedStep s { s with monitoring := .running }
  | monitorFinish (s : WorkflowSched) (t : StepStatus) :
      s.monitoring = .running → t.isTerminal = true →
      SchedStep s { s with monitoring := t }
  | monitorSkip (s : WorkflowSched) :
      s.monitoring = .pending → s.forecasting.isTerminal = true →
      SchedStep s { s with monitoring := .skipped }

/-- States reachable within one workflow run. -/
inductive Reachable : WorkflowSched → Prop
  | init : Reachable initSched
  | step {s s' : WorkflowSched} : Reachable s → SchedStep s s' → Reachable s'

/-! ## Forecasting step (spec section 4.2) -/

/-- Modelled from the spec: the forecasting error raised on zero history
(spec sections 4.2 and 7; `agents/forecasting_agent.py` is not in the
tree). -/
inductive ForecastError
  | insufficientData
deriving DecidableEq, Repr

/-- Modelled from the spec: a `ForecastResult` payload with its
`degraded` flag (spec section 3 `StepResult`). -/
structure ForecastResult where
  points : List ℚ
  degraded : Bool
deriving DecidableEq, Repr

/-- Trailing moving average over the last `window` entries of the history
(the spec's simplest fallback model, section 4.2). -/
def trailingMovingAverage (history : List ℚ) (window : Nat) : ℚ :=
  let w := (history.reverse.take window)
  if w.length = 0 then 0 else w.sum / (w.length : ℚ)

/-- Fallback forecast: the trailing moving average repeated over the
horizon. -/
def movingAverageForecast (history : List ℚ) (horizon window : Nat) : List ℚ :=
  List.replicate horizon (trailingMovingAverage history window)

/-- Modelled from the spec: the Forecasting Step's data-sufficiency policy
(spec section 4.2).  Zero history fails with `insufficientData`; non-empty
history below the minimum sample threshold returns a degraded result from the
trailing moving average; otherwise the pluggable model backend (`backend`,
an external collaborator per spec section 6) produces the points. -/
def forecastStep (backend : List ℚ → Nat → List ℚ) (minSamples window : Nat)
    (history : List ℚ) (horizon : Nat) : Except ForecastError ForecastResult :=
  if history = [] then .error .insufficientData
  else if history.length < minSamples then
    .ok ⟨movingAverageForecast history horizon window, true⟩
  else .ok ⟨backend history horizon, false⟩

/-! ## Route optimization step (spec section 4.3) -/

/-- Modelled from the spec: a `RoutePlan` payload — visiting sequence,
distance, time, cost, and savings versus the naive baseline that visits the
destinations in input order (spec section 4.3).  Branch ids are embedded as
naturals. -/
structure RoutePlan where
  sequence : List Nat
  total_distance_km : ℚ
  total_time_hours : ℚ
  total_cost_usd : ℚ
  savings_vs_baseline : ℚ
deriving DecidableEq, Repr

/-- Total length of a path under the pairwise distance table `dist`. -/
def pathDistance (dist : Nat → Nat → ℚ) : List Nat → ℚ
  | a :: b :: rest => dist a b + pathDistance dist (b :: rest)
  | _ => 0

/-- Modelled from the spec: the visiting sequence produced by the external
route solver (spec sections 4.3 and 6; `agents/route_optimization_agent.py`
is not in the tree).  The solver is represented as a deterministic function
of the destination *set*: it deduplicates the input (spec: "deduplicated,
order-irrelevant as given") and visits the destinations in a canonical order
(ascending id), wrapped by the depot at both ends.  This captures the spec's
guarantees that the sequence starts and ends at the depot, that input order
is irrelevant, and that the result is deterministic. -/
def routeSequence (depot : Nat) (dests : List Nat) : List Nat :=
  depot :: (dests.dedup.insertionSort (· ≤ ·) ++ [depot])

/-- Cost per kilometre (README `VRP_CONFIG.cost_per_km` = 2.5). -/
def costPerKm : ℚ := 5 / 2

/-- Cost per hour (README `VRP_CONFIG.cost_per_hour` = 25.0). -/
def costPerHour : ℚ := 25

/-- Assumed average speed used to turn distance into route time. -/
def avgSpeedKmh : ℚ := 40

/-- Modelled from the spec: the Route Optimization Step (spec section 4.3).
Distance, time and cost are derived from the solver's visiting sequence;
the savings percentage compares against the naive baseline that visits the
destinations in input order. -/
def optimizeRoute (dist : Nat → Nat → ℚ) (depot : Nat) (dests : List Nat) :
    RoutePlan :=
  let seq := routeSequence depot dests
  let d := pathDistance dist seq
  let t := d / avgSpeedKmh
  let base := pathDistance dist (depot :: (dests ++ [depot]))
  { sequence := seq
    total_distance_km := d
    total_time_hours := t
    total_cost_usd := costPerKm * d + costPerHour * t
    savings_vs_baseline := if base = 0 then 0 else (base - d) / base * 100 }

/-- Embeds `frontend/src/app/routes/page.tsx` (`optimizeRoute`, catch
branch): the mock route plan's visiting sequence
`[depotId, ...destinations, depotId]`. -/
def mockRouteSequence (depotId : Nat) (destinations : List Nat) : List Nat :=
  depotId :: (destinations ++ [depotId])

/-- Embeds `frontend/src/app/routes/page.tsx` (`optimizeRoute`, lines 47-52):
the click handler issues no request when the depot is unset or the
destination list is empty, otherwise it posts the pair to the backend. -/
def optimizeRouteClick (depotId : Option Nat) (destinations : List Nat) :
    Option (Nat × List Nat) :=
  match depotId with
  | none => none
  | some d => if destinations = [] then none else some (d, destinations)

/-! ## Inventory matching step (spec section 4.4) -/

/-- Modelled from the spec: a branch's stock snapshot for one item
(spec section 4.4; mirrors the frontend `InventoryItem` fields
`current_stock`, `optimal_stock`, `safe_stock`).  Quantities are integers. -/
structure BranchStock where
  branch_id : Nat
  current_stock : ℤ
  optimal_stock : ℤ
  safe_stock : ℤ
deriving DecidableEq, Repr

/-- The four classifications of spec section 4.4. -/
inductive StockClass
  | normal
  | low
  | high
  | critical
deriving DecidableEq, Repr

/-- Modelled from the spec: classification against the safe-stock floor and
the optimal-stock target with the configured multipliers (README
`ALERT_THRESHOLDS`: `overstock_multiplier` 1.5, `understock_multiplier` 0.3,
encoded over integers as stock*10 against optimal*15 and optimal*3). -/
def classify (b : BranchStock) : StockClass :=
  if b.current_stock < b.safe_stock then .critical
  else if b.current_stock * 10 < b.optimal_stock * 3 then .low
  else if b.current_stock * 10 > b.optimal_stock * 15 then .high
  else .normal

/-- Source surplus above the optimal level (spec section 4.4). -/
def surplus (b : BranchStock) : ℤ := b.current_stock - b.optimal_stock

/-- Destination deficit below the safe level (spec section 4.4). -/
def deficit (b : BranchStock) : ℤ := b.safe_stock - b.current_stock

/-- Donor ordering: larger surplus first, ties broken by branch id. -/
def donorOrder (a b : BranchStock) : Prop :=
  surplus b < surplus a ∨ (surplus a = surplus b ∧ a.branch_id ≤ b.branch_id)

/-- Receiver ordering: largest deficit first, ties broken by branch id
(spec section 4.4). -/
def receiverOrder (a b : BranchStock) : Prop :=
  deficit b < deficit a ∨ (deficit a = deficit b ∧ a.branch_id ≤ b.branch_id)

instance : DecidableRel donorOrder := fun a b => by
  unfold donorOrder; exact inferInstance

instance : DecidableRel receiverOrder := fun a b => by
  unfold receiverOrder; exact inferInstance

/-- A suggested stock transfer (spec section 4.4). -/
structure Transfer where
  source_branch : Nat
  dest_branch : Nat
  quantity : ℤ
deriving DecidableEq, Repr

/-- Branches classified `high`, ordered by descending surplus then id. -/
def donors (bs : List BranchStock) : List BranchStock :=
  (bs.filter (fun b => decide (classify b = .high))).insertionSort donorOrder

/-- Branches classified `critical` (stock strictly below the safe floor, so
their deficit below the safe level is positive), ordered by descending
deficit then id. -/
def receivers (bs : List BranchStock) : List BranchStock :=
  (bs.filter (fun b => decide (classify b = .critical))).insertionSort
    receiverOrder

/-- Modelled from the spec: the Inventory Matching Step's transfer
suggestions (spec section 4.4; `agents/inventory_matching_agent.py` is not
in the tree).  Donors and receivers are paired greedily in severity order —
largest deficit matched first, ties broken by branch id — and each transfer
moves the minimum of the source's surplus above optimal and the
destination's deficit below safe. -/
def matchTransfers (bs : List BranchStock) : List Transfer :=
  List.zipWith
    (fun d r => ⟨d.branch_id, r.branch_id, min (surplus d) (deficit r)⟩)
    (donors bs) (receivers bs)

/-! ## Monitoring step (spec section 4.5) -/

/-- Alert severities (frontend `Alert` interface and spec section 3). -/
inductive Severity
  | CRITICAL
  | WARNING
  | INFO
deriving DecidableEq, Repr

/-- Modelled from the spec: the externally configured monitoring thresholds
(README `ALERT_THRESHOLDS`: `critical_stockout_days` 2,
`warning_stockout_days` 7 — kept abstract here, as spec section 4.5 requires
them to be configuration, not constants). -/
structure MonitoringConfig where
  criticalDays : ℚ
  warningDays : ℚ

/-- One branch/item combination's current and forecasted stock levels, the
Monitoring Step's input (spec section 4.5). -/
structure StockInfo where
  branch_id : Nat
  item_id : Nat
  current_stock : ℚ
  forecast_daily_demand : ℚ
deriving DecidableEq, Repr

/-- A structured monitoring alert for one branch/item combination. -/
structure MonAlert where
  severity : Severity
  branch_id : Nat
  item_id : Nat
  days_until_stockout : ℚ
deriving DecidableEq, Repr

/-- Modelled from the spec: the stockout check for one branch/item
combination (spec section 4.5; `agents/monitoring_agent.py` is not in the
tree).  Days-until-stockout is current stock divided by forecasted average
daily demand; zero forecasted demand yields no alert (cannot stock out). -/
def stockoutAlert (cfg : MonitoringConfig) (si : StockInfo) : Option MonAlert :=
  if si.forecast_daily_demand = 0 then none
  else
    let days := si.current_stock / si.forecast_daily_demand
    if days < cfg.criticalDays then
      some ⟨.CRITICAL, si.branch_id, si.item_id, days⟩
    else if days < cfg.warningDays then
      some ⟨.WARNING, si.branch_id, si.item_id, days⟩
    else none

/-- Modelled from the spec: the Monitoring Step's structured alert
generation over all branch/item combinations. -/
def monitorStep (cfg : MonitoringConfig) (data : List StockInfo) :
    List MonAlert :=
  data.filterMap (stockoutAlert cfg)

/-- Outcome of one call to the language-summarization collaborator
(spec section 6: best-effort, may be unavailable). -/
inductive SummarizerOutcome
  | unavailable
  | failure
  | ok (text : String)
deriving DecidableEq, Repr

/-- The optional narrative extracted from a summarizer outcome. -/
def narrativeOf : SummarizerOutcome → Option String
  | .ok t => some t
  | _ => none

/-- Modelled from the spec: the Monitoring Step's `AlertBatch` output —
authoritative structured alerts with severity counts, plus the best-effort
narrative (spec section 4.5). -/
structure AlertBatch where
  alerts : List MonAlert
  critical_count : Nat
  warning_count : Nat
  info_count : Nat
  narrative : Option String
deriving DecidableEq, Repr

/-- Modelled from the spec: the full Monitoring Step — the structured batch
is computed first, then the summarizer outcome is appended as an optional
decorator stage (spec design note: "an optional decorator stage appended
after the authoritative computation, not interleaved with it"). -/
def buildAlertBatch (cfg : MonitoringConfig) (data : List StockInfo)
    (outcome : SummarizerOutcome) : AlertBatch :=
  let as := monitorStep cfg data
  { alerts := as
    critical_count := as.countP (fun a => decide (a.severity = .CRITICAL))
    warning_count := as.countP (fun a => decide (a.severity = .WARNING))
    info_count := as.countP (fun a => decide (a.severity = .INFO))
    narrative := narrativeOf outcome }

/-! ## Request validation and run entry (spec sections 4.1 and 7) -/

/-- The four workflow steps a request may ask for. -/
inductive StepName
  | forecasting
  | routing
  | inventoryMatching
  | monitoring
deriving DecidableEq, Repr

/-- Modelled from the spec: the immutable `WorkflowRequest`
(spec section 3), restricted to the fields validation reads. -/
structure WorkflowRequest where
  steps : List StepName
  destinations : List Nat
  horizon_days : Nat
deriving DecidableEq, Repr

/-- Lower bound of the supported forecast horizon (spec section 4.2:
"bounded, e.g. 1-365 days"). -/
def minHorizon : Nat := 1

/-- Upper bound of the supported forecast horizon. -/
def maxHorizon : Nat := 365

/-- A structured validation error (spec section 7 `ValidationError`). -/
structure ValidationError where
  msg : String
deriving DecidableEq, Repr

/-- Modelled from the spec: request validation at entry (spec section 4.1
step 1): routing needs a non-empty destination set, forecasting a horizon
within the supported bounds. -/
def validateRequest (req : WorkflowRequest) : Option ValidationError :=
  if StepName.routing ∈ req.steps ∧ req.destinations = [] then
    some ⟨"routing requires a non-empty destination set"⟩
  else if StepName.forecasting ∈ req.steps ∧
      (req.horizon_days < minHorizon ∨ maxHorizon < req.horizon_days) then
    some ⟨"forecast horizon outside the supported bounds"⟩
  else none

/-- Modelled from the spec: the orchestrator's `run` entry point
(spec sections 4.1 and 7), with step execution abstracted by `exec`.
It returns the response — a structured validation error, or one recorded
outcome per requested step — paired with the list of steps actually
invoked, so that "no steps are attempted" on invalid input is visible. -/
def runWorkflow (exec : StepName → StepOutcome) (req : WorkflowRequest) :
    Except ValidationError (List (StepName × StepOutcome)) × List StepName :=
  match validateRequest req with
  | some e => (.error e, [])
  | none => (.ok (req.steps.map (fun s => (s, exec s))), req.steps)

/-! ## Frontend alerts page (`frontend/src/app/alerts/page.tsx`) -/

/-- Embeds the frontend `Alert` interface (`alerts/page.tsx` lines 27-38). -/
structure FAlert where
  severity : Severity
  branch_id : String
  item_id : String
  alert_type : String
  current_stock : Option ℚ
  days_until_stockout : Option ℚ
  message : String
  recommended_action : String
  timestamp : String
  is_resolved : Bool
deriving DecidableEq, Repr

/-- Embeds the frontend `AlertSummary` interface (`alerts/page.tsx` lines
40-45).  Counts are integers, as JavaScript numbers may go below zero under
the page's unguarded decrements. -/
structure AlertSummary where
  total_alerts : ℤ
  critical_count : ℤ
  warning_count : ℤ
  info_count : ℤ
deriving DecidableEq, Repr

/-- The summary count that tracks a given severity. -/
def severityCount (s : AlertSummary) : Severity → ℤ
  | .CRITICAL => s.critical_count
  | .WARNING => s.warning_count
  | .INFO => s.info_count

/-- Embeds `resolveAlert` (`alerts/page.tsx` lines 183-197) for an in-bounds
index (an out-of-bounds index would throw in the original): the alert at the
index has `is_resolved` set, `total_alerts` is decremented, and the count
matching the alert's severity is decremented. -/
def resolveAlert (alerts : List FAlert) (summary : AlertSummary)
    (i : Fin alerts.length) : List FAlert × AlertSummary :=
  let a := alerts.get i
  let updated := alerts.set i { a with is_resolved := true }
  (updated,
   { total_alerts := summary.total_alerts - 1
     critical_count :=
       if a.severity = .CRITICAL then summary.critical_count - 1
       else summary.critical_count
     warning_count :=
       if a.severity = .WARNING then summary.warning_count - 1
       else summary.warning_count
     info_count :=
       if a.severity = .INFO then summary.info_count - 1
       else summary.info_count })

/-- Embeds the shape of the `/api/v1/alerts` response consumed by
`loadAlerts` (`alerts/page.tsx` lines 69-83). -/
structure AlertsResponse where
  alerts : List FAlert
  total_alerts : ℤ
  critical_count : ℤ
  warning_count : ℤ
  info_count : ℤ
  ai_insights : Option String
deriving DecidableEq, Repr

/-- Embeds the success branch of `loadAlerts` (`alerts/page.tsx` lines
74-83): the alerts list and summary are taken from the structured fields,
and the AI-insights text falls back to a fixed placeholder when absent
(the source uses a Persian literal). -/
def loadAlertsView (resp : AlertsResponse) :
    List FAlert × AlertSummary × String :=
  (resp.alerts,
   ⟨resp.total_alerts, resp.critical_count, resp.warning_count,
    resp.info_count⟩,
   resp.ai_insights.getD "AI insights unavailable")

/-! ## Theorems -/

/-- A step outcome is non-failed exactly when it succeeded or
degraded-succeeded. -/
theorem StepOutcome.not_failed_iff (r : StepOutcome) :
    (!r.isFailed) = true ↔ (r = .succeeded ∨ r = .degradedSucceeded) := by
  cases r <;> simp [StepOutcome.isFailed]

/-- A step outcome is failed exactly when `isFailed` holds. -/
theorem StepOutcome.failed_iff (r : StepOutcome) :
    ¬((!r.isFailed) = true) ↔ r = .failed := by
  cases r <;> simp [StepOutcome.isFailed]

/-- C1: once every requested step is terminal, the assembled response's
overall status is `success` exactly when every requested step succeeded or
degraded-succeeded, `mixed` (the spec's intermediate status) exactly when at
least one step failed and at least one succeeded, and `failed` exactly when
every step failed.  The run is assumed to request at least one step. -/
theorem overallStatus_characterization (rs : List StepOutcome)
    (hne : rs ≠ []) :
    (overallStatus rs = .success ↔
      ∀ r ∈ rs, r = .succeeded ∨ r = .degradedSucceeded) ∧
    (overallStatus rs = .mixed ↔
      ((∃ r ∈ rs, r = .failed) ∧
        ∃ r ∈ rs, r = .succeeded ∨ r = .degradedSucceeded)) ∧
    (overallStatus rs = .failed ↔ ∀ r ∈ rs, r = .failed) := by
  obtain ⟨r0, hr0⟩ := List.exists_mem_of_ne_nil rs hne
  unfold overallStatus
  cases hall : rs.all (fun r => !r.isFailed) with
  | true =>
    have hall' : ∀ r ∈ rs, r = .succeeded ∨ r = .degradedSucceeded :=
      fun r hr => (StepOutcome.not_failed_iff r).1 (List.all_eq_true.1 hall r hr)
    simp only [if_true]
    refine ⟨iff_of_true trivial hall', ?_, ?_⟩
    · constructor
      · intro h; exact absurd h (by simp)
      · rintro ⟨⟨r, hr, hfail⟩, -⟩
        rcases hall' r hr with h | h <;> simp [h] at hfail
    · constructor
      · intro h; exact absurd h (by simp)
      · intro h
        rcases hall' r0 hr0 with hh | hh <;> simp [h r0 hr0] at hh
  | false =>
    have hex : ∃ r ∈ rs, r = .failed := by
      rcases List.all_eq_false.1 hall with ⟨r, hr, hf⟩
      exact ⟨r, hr, (StepOutcome.failed_iff r).1 (by simpa using hf)⟩
    cases hany : rs.any (fun r => !r.isFailed) with
    | true =>
      have hsome : ∃ r ∈ rs, r = .succeeded ∨ r = .degradedSucceeded := by
        rcases List.any_eq_true.1 hany with ⟨r, hr, hok⟩
        exact ⟨r, hr, (StepOutcome.not_failed_iff r).1 hok⟩
      simp only [if_false, if_true, Bool.false_eq_true]
      refine ⟨?_, iff_of_true trivial ⟨hex, hsome⟩, ?_⟩
      · constructor
        · intro h; exact absurd h (by simp)
        · intro h
          obtain ⟨r, hr, hf⟩ := hex
          rcases h r hr with hh | hh <;> simp [hf] at hh
      · constructor
        · intro h; exact absurd h (by simp)
        · intro h
          obtain ⟨r, hr, hok⟩ := hsome
          rcases hok with hh | hh <;> simp [h r hr] at hh
    | false =>
      have hallf : ∀ r ∈ rs, r = .failed := by
        intro r hr
        have := List.any_eq_false.1 hany r hr
        exact (StepOutcome.failed_iff r).1 (by simpa using this)
      simp only [if_false, Bool.false_eq_true]
      refine ⟨?_, ?_, iff_of_true trivial hallf⟩
      · constructor
        · intro h; exact absurd h (by simp)
        · intro h
          rcases h r0 hr0 with hh | hh <;> simp [hallf r0 hr0] at hh
      · constructor
        · intro h; exact absurd h (by simp)
        · rintro ⟨-, r, hr, hok⟩
          rcases hok with hh | hh <;> simp [hallf r hr] at hh

/-- C1 witness: a run with one failed and one succeeded step is `mixed`,
evaluated concretely. -/
theorem overallStatus_characterization_witness :
    overallStatus [.failed, .succeeded] = .mixed ∧
    overallStatus [.succeeded, .degradedSucceeded] = .success ∧
    overallStatus [.failed, .failed] = .failed := by
  refine ⟨?_, ?_, ?_⟩
  · exact ((overallStatus_characterization [.failed, .succeeded]
      (by decide)).2.1).2 (by simp)
  · exact ((overallStatus_characterization [.succeeded, .degradedSucceeded]
      (by decide)).1).2 (by simp)
  · exact ((overallStatus_characterization [.failed, .failed]
      (by decide)).2.2).2 (by simp)

/-- C3: the Forecasting Step fails with `InsufficientDataError` exactly when
the history is empty; non-empty history below the minimum sample threshold
yields a degraded trailing-moving-average result instead of an error. -/
theorem forecastStep_data_policy (backend : List ℚ → Nat → List ℚ)
    (minSamples window horizon : Nat) (history : List ℚ) :
    (forecastStep backend minSamples window history horizon =
        .error .insufficientData ↔ history = []) ∧
    (history ≠ [] → history.length < minSamples →
      forecastStep backend minSamples window history horizon =
        .ok ⟨movingAverageForecast history horizon window, true⟩) := by
  unfold forecastStep
  constructor
  · by_cases h : history = []
    · simp [h]
    · simp only [h, if_false]
      constructor
      · intro hcontra; split at hcontra <;> exact absurd hcontra (by simp)
      · intro hcontra; exact hcontra.elim
  · intro h1 h2
    simp [h1, h2]

/-- C3 witness: empty history errors; a two-point history below a threshold
of five returns the degraded moving-average forecast, whose value computes
to the average 3. -/
theorem forecastStep_data_policy_witness :
    forecastStep (fun _ _ => []) 5 3 [] 7 = .error .insufficientData ∧
    forecastStep (fun _ _ => []) 5 3 [2, 4] 7 =
      .ok ⟨movingAverageForecast [2, 4] 7 3, true⟩ ∧
    movingAverageForecast [2, 4] 7 3 = List.replicate 7 3 := by
  refine ⟨?_, ?_,
    by unfold movingAverageForecast trailingMovingAverage; norm_num⟩
  · exact (forecastStep_data_policy (fun _ _ => []) 5 3 7 []).1.2 rfl
  · exact (forecastStep_data_policy (fun _ _ => []) 5 3 7 [2, 4]).2
      (by decide) (by decide)

/-- C2: in every state reachable within one workflow run, once Inventory
Matching or Monitoring has begun (its status is no longer `pending`, so in
particular once it is terminal), Forecasting is already in a terminal status
(`succeeded`, `failed` or `skipped`); Group C never observes a `pending` or
`running` Forecasting result. -/
theorem groupC_observes_terminal_forecast (s : WorkflowSched)
    (h : Reachable s) :
    (s.inventory ≠ .pending → s.forecasting.isTerminal = true) ∧
    (s.monitoring ≠ .pending → s.forecasting.isTerminal = true) := by
  induction h with
  | init => exact ⟨fun hc => absurd rfl hc, fun hc => absurd rfl hc⟩
  | step hr hstep ih =>
    cases hstep with
    | forecastStart hp =>
      exact ⟨fun hc => absurd (ih.1 hc) (by rw [hp]; decide),
             fun hc => absurd (ih.2 hc) (by rw [hp]; decide)⟩
    | forecastFinish t hrun ht => exact ⟨fun _ => ht, fun _ => ht⟩
    | forecastSkip hp => exact ⟨fun _ => rfl, fun _ => rfl⟩
    | routeStart hp => exact ih
    | routeFinish t hrun ht => exact ih
    | routeSkip hp => exact ih
    | inventoryStart hp hterm => exact ⟨fun _ => hterm, fun hc => ih.2 hc⟩
    | inventoryFinish t hrun ht =>
      exact ⟨fun _ => ih.1 (by rw [hrun]; decide), fun hc => ih.2 hc⟩
    | inventorySkip hp hterm => exact ⟨fun _ => hterm, fun hc => ih.2 hc⟩
    | monitorStart hp hterm => exact ⟨fun hc => ih.1 hc, fun _ => hterm⟩
    | monitorFinish t hrun ht =>
      exact ⟨fun hc => ih.1 hc, fun _ => ih.2 (by rw [hrun]; decide)⟩
    | monitorSkip hp hterm => exact ⟨fun hc => ih.1 hc, fun _ => hterm⟩

/-- C2 witness: the state reached by starting and finishing Forecasting and
then starting Inventory Matching is reachable, and the theorem yields that
Forecasting is terminal there. -/
theorem groupC_observes_terminal_forecast_witness :
    Reachable ⟨.succeeded, .pending, .running, .pending⟩ ∧
    (WorkflowSched.mk .succeeded .pending .running .pending).forecasting.isTerminal
      = true := by
  have h0 : Reachable initSched := Reachable.init
  have h1 : Reachable ⟨.running, .pending, .pending, .pending⟩ :=
    Reachable.step h0 (SchedStep.forecastStart initSched rfl)
  have h2 : Reachable ⟨.succeeded, .pending, .pending, .pending⟩ :=
    Reachable.step h1 (SchedStep.forecastFinish _ .succeeded rfl rfl)
  have h3 : Reachable ⟨.succeeded, .pending, .running, .pending⟩ :=
    Reachable.step h2 (SchedStep.inventoryStart _ rfl rfl)
  exact ⟨h3, (groupC_observes_terminal_forecast _ h3).1 (by decide)⟩

/-- The route plan's sequence is the solver's visiting sequence. -/
theorem optimizeRoute_sequence (dist : Nat → Nat → ℚ) (depot : Nat)
    (dests : List Nat) :
    (optimizeRoute dist depot dests).sequence = routeSequence depot dests :=
  rfl

/-- The route plan's distance is the path length of its sequence. -/
theorem optimizeRoute_distance (dist : Nat → Nat → ℚ) (depot : Nat)
    (dests : List Nat) :
    (optimizeRoute dist depot dests).total_distance_km =
      pathDistance dist (routeSequence depot dests) :=
  rfl

/-- The route plan's time is derived from its distance. -/
theorem optimizeRoute_time (dist : Nat → Nat → ℚ) (depot : Nat)
    (dests : List Nat) :
    (optimizeRoute dist depot dests).total_time_hours =
      pathDistance dist (routeSequence depot dests) / avgSpeedKmh :=
  rfl

/-- The route plan's cost is derived from its distance and time. -/
theorem optimizeRoute_cost (dist : Nat → Nat → ℚ) (depot : Nat)
    (dests : List Nat) :
    (optimizeRoute dist depot dests).total_cost_usd =
      costPerKm * pathDistance dist (routeSequence depot dests) +
        costPerHour * (pathDistance dist (routeSequence depot dests) /
          avgSpeedKmh) :=
  rfl

/-- C4: for a non-empty destination set not containing the depot, the
optimized visiting sequence starts at the depot, ends at the depot, contains
every destination exactly once and no other stops; the frontend's fallback
sequence `[depot, ...destinations, depot]` (`routes/page.tsx`) has the same
shape whenever the destination list is duplicate-free, as the page's
`addDestination` handler guarantees. -/
theorem routePlan_sequence_wellformed (dist : Nat → Nat → ℚ) (depot : Nat)
    (dests : List Nat) (hne : dests ≠ []) (hd : depot ∉ dests) :
    ((optimizeRoute dist depot dests).sequence.head? = some depot) ∧
    ((optimizeRoute dist depot dests).sequence.getLast? = some depot) ∧
    (∀ x ∈ dests, (optimizeRoute dist depot dests).sequence.count x = 1) ∧
    (∀ x ∈ (optimizeRoute dist depot dests).sequence,
      x = depot ∨ x ∈ dests) ∧
    (dests.Nodup →
      (mockRouteSequence depot dests).head? = some depot ∧
      (mockRouteSequence depot dests).getLast? = some depot ∧
      ∀ x ∈ dests, (mockRouteSequence depot dests).count x = 1) := by
  rw [optimizeRoute_sequence]
  unfold routeSequence mockRouteSequence
  refine ⟨rfl, ?_, ?_, ?_, ?_⟩
  · rw [← List.cons_append]
    exact List.getLast?_concat _
  · intro x hx
    have hxd : x ≠ depot := fun h => hd (h ▸ hx)
    have h1 : List.count x [depot] = 0 := List.count_eq_zero.2 (by simp [hxd])
    have h2 : List.count x (dests.dedup.insertionSort (· ≤ ·)) = 1 := by
      rw [(List.perm_insertionSort _ _).count_eq]
      exact List.count_eq_one_of_mem (List.nodup_dedup dests)
        (List.mem_dedup.2 hx)
    rw [List.count_cons_of_ne hxd, List.count_append, h1, h2]
  · intro x hxmem
    simp only [List.mem_cons, List.mem_append, List.mem_singleton,
      List.mem_insertionSort, List.mem_dedup] at hxmem
    tauto
  · intro hnd
    refine ⟨rfl, ?_, ?_⟩
    · rw [← List.cons_append]
      exact List.getLast?_concat _
    · intro x hx
      have hxd : x ≠ depot := fun h => hd (h ▸ hx)
      have h1 : List.count x [depot] = 0 :=
        List.count_eq_zero.2 (by simp [hxd])
      rw [List.count_cons_of_ne hxd, List.count_append, h1,
        List.count_eq_one_of_mem hnd hx]

/-- C4 witness: the Scenario C shape with depot 0 and destinations 1, 2, 3
(encoding `MAIN_BRANCH`, `BRANCH_A`, `BRANCH_B`, `BRANCH_C`): the optimized
sequence is `[0, 1, 2, 3, 0]`. -/
theorem routePlan_sequence_wellformed_witness :
    (optimizeRoute (fun _ _ => 1) 0 [2, 1, 3]).sequence = [0, 1, 2, 3, 0] ∧
    (optimizeRoute (fun _ _ => 1) 0 [2, 1, 3]).sequence.head? = some 0 ∧
    (optimizeRoute (fun _ _ => 1) 0 [2, 1, 3]).sequence.getLast? = some 0 ∧
    (optimizeRoute (fun _ _ => 1) 0 [2, 1, 3]).sequence.count 2 = 1 := by
  have h := routePlan_sequence_wellformed (fun _ _ => 1) 0 [2, 1, 3]
    (by decide) (by decide)
  exact ⟨by decide, h.1, h.2.1, h.2.2.1 2 (by decide)⟩

/-- C8: re-running Route Optimization with the same destination set in any
two input orders yields the same visiting sequence, distance, time and
cost. -/
theorem optimizeRoute_input_order_invariant (dist : Nat → Nat → ℚ)
    (depot : Nat) (d1 d2 : List Nat) (hperm : d1.Perm d2) :
    (optimizeRoute dist depot d1).sequence =
      (optimizeRoute dist depot d2).sequence ∧
    (optimizeRoute dist depot d1).total_distance_km =
      (optimizeRoute dist depot d2).total_distance_km ∧
    (optimizeRoute dist depot d1).total_time_hours =
      (optimizeRoute dist depot d2).total_time_hours ∧
    (optimizeRoute dist depot d1).total_cost_usd =
      (optimizeRoute dist depot d2).total_cost_usd := by
  have hseq : routeSequence depot d1 = routeSequence depot d2 := by
    unfold routeSequence
    have hsort : d1.dedup.insertionSort (· ≤ ·) =
        d2.dedup.insertionSort (· ≤ ·) :=
      List.eq_of_perm_of_sorted
        ((List.perm_insertionSort _ _).trans
          (hperm.dedup.trans (List.perm_insertionSort _ _).symm))
        (List.sorted_insertionSort _ _) (List.sorted_insertionSort _ _)
    rw [hsort]
  refine ⟨?_, ?_, ?_, ?_⟩
  · rw [optimizeRoute_sequence, optimizeRoute_sequence, hseq]
  · rw [optimizeRoute_distance, optimizeRoute_distance, hseq]
  · rw [optimizeRoute_time, optimizeRoute_time, hseq]
  · rw [optimizeRoute_cost, optimizeRoute_cost, hseq]

/-- C8 witness: the destination lists `[2, 1]` and `[1, 2]` give the same
sequence and cost. -/
theorem optimizeRoute_input_order_invariant_witness :
    (optimizeRoute (fun _ _ => 1) 0 [2, 1]).sequence =
      (optimizeRoute (fun _ _ => 1) 0 [1, 2]).sequence ∧
    (optimizeRoute (fun _ _ => 1) 0 [2, 1]).total_cost_usd =
      (optimizeRoute (fun _ _ => 1) 0 [1, 2]).total_cost_usd ∧
    (optimizeRoute (fun _ _ => 1) 0 [2, 1]).sequence = [0, 1, 2, 0] := by
  have h := optimizeRoute_input_order_invariant (fun _ _ => 1) 0 [2, 1] [1, 2]
    (List.Perm.swap 1 2 [])
  exact ⟨h.1, h.2.2.2, by decide⟩

/-- An element of a `zipWith` comes from an element of each input list. -/
theorem exists_of_mem_zipWith {α β γ : Type} (f : α → β → γ) :
    ∀ (as : List α) (bs : List β) (c : γ), c ∈ List.zipWith f as bs →
      ∃ a b, a ∈ as ∧ b ∈ bs ∧ c = f a b
  | a :: as, b :: bs, c, hc => by
    rcases List.mem_cons.1 hc with h | h
    · exact ⟨a, b, List.mem_cons_self a as, List.mem_cons_self b bs, h⟩
    · obtain ⟨a', b', ha, hb, he⟩ := exists_of_mem_zipWith f as bs c h
      exact ⟨a', b', List.mem_cons_of_mem _ ha, List.mem_cons_of_mem _ hb, he⟩
  | [], _, c, hc => by simp at hc
  | _ :: _, [], c, hc => by simp at hc

/-- C5: every transfer suggested by Inventory Matching goes from a branch
classified `high` to a branch classified `critical`, and its quantity is the
minimum of the source's surplus above its optimal stock level and the
destination's deficit below its safe stock level.  The pairing is computed
by a function of the snapshot (largest deficit first, ties broken by branch
id), so the output is deterministic. -/
theorem matchTransfers_quantity_min (bs : List BranchStock) (t : Transfer)
    (ht : t ∈ matchTransfers bs) :
    ∃ d r, d ∈ bs ∧ r ∈ bs ∧ classify d = .high ∧ classify r = .critical ∧
      t.source_branch = d.branch_id ∧ t.dest_branch = r.branch_id ∧
      t.quantity = min (surplus d) (deficit r) := by
  obtain ⟨d, r, hdmem, hrmem, he⟩ :=
    exists_of_mem_zipWith _ (donors bs) (receivers bs) t ht
  have hd : d ∈ bs.filter (fun b => decide (classify b = .high)) :=
    (List.mem_insertionSort _).1 hdmem
  have hr : r ∈ bs.filter (fun b => decide (classify b = .critical)) :=
    (List.mem_insertionSort _).1 hrmem
  refine ⟨d, r, (List.mem_filter.1 hd).1, (List.mem_filter.1 hr).1,
    ?_, ?_, ?_, ?_, ?_⟩
  · simpa using (List.mem_filter.1 hd).2
  · simpa using (List.mem_filter.1 hr).2
  · rw [he]
  · rw [he]
  · rw [he]

/-- C5 witness: Scenario D — branch 1 with stock 850 against optimal 500
(surplus 350, classified `high`) and branch 2 with stock 45 against safe 100
(deficit 55, classified `critical`) — produces exactly one transfer, from
branch 1 to branch 2, of quantity `min 350 55 = 55`. -/
theorem matchTransfers_quantity_min_witness :
    matchTransfers [⟨1, 850, 500, 100⟩, ⟨2, 45, 500, 100⟩] =
      [⟨1, 2, 55⟩] ∧
    (∃ d r, d ∈ [(⟨1, 850, 500, 100⟩ : BranchStock), ⟨2, 45, 500, 100⟩] ∧
      r ∈ [(⟨1, 850, 500, 100⟩ : BranchStock), ⟨2, 45, 500, 100⟩] ∧
      classify d = .high ∧ classify r = .critical ∧
      (Transfer.mk 1 2 55).source_branch = d.branch_id ∧
      (Transfer.mk 1 2 55).dest_branch = r.branch_id ∧
      (Transfer.mk 1 2 55).quantity = min (surplus d) (deficit r)) := by
  refine ⟨by decide, ?_⟩
  exact matchTransfers_quantity_min [⟨1, 850, 500, 100⟩, ⟨2, 45, 500, 100⟩]
    ⟨1, 2, 55⟩ (by decide)

/-- C6: zero forecasted daily demand for a branch/item combination never
produces a stockout alert: the per-combination check is guarded against the
division by zero and returns no alert, and adding such a combination to a
monitoring run leaves the alert batch unchanged. -/
theorem zero_demand_no_stockout_alert (cfg : MonitoringConfig)
    (si : StockInfo) (h : si.forecast_daily_demand = 0) :
    stockoutAlert cfg si = none ∧
    ∀ data : List StockInfo,
      monitorStep cfg (si :: data) = monitorStep cfg data := by
  have h0 : stockoutAlert cfg si = none := by
    unfold stockoutAlert
    simp [h]
  refine ⟨h0, fun data => ?_⟩
  unfold monitorStep
  simp [List.filterMap_cons, h0]

/-- C6 witness: with the configured thresholds of 2 and 7 days, a branch
with stock 45 and zero forecasted demand yields no alert at all. -/
theorem zero_demand_no_stockout_alert_witness :
    stockoutAlert ⟨2, 7⟩ ⟨1, 1, 45, 0⟩ = none ∧
    monitorStep ⟨2, 7⟩ [⟨1, 1, 45, 0⟩] = [] := by
  have h := zero_demand_no_stockout_alert ⟨2, 7⟩ ⟨1, 1, 45, 0⟩ rfl
  exact ⟨h.1, by simpa using h.2 []⟩

/-- C7: an invalid workflow request — routing requested with an empty
destination set, or forecasting requested with a horizon outside the
supported bounds — makes the run entry point return a structured validation
error, with no step invoked and no step result recorded; the frontend's
route form (`routes/page.tsx` lines 47-52) likewise issues no request when
the destination list is empty. -/
theorem invalid_request_aborts (exec : StepName → StepOutcome)
    (req : WorkflowRequest)
    (h : (StepName.routing ∈ req.steps ∧ req.destinations = []) ∨
         (StepName.forecasting ∈ req.steps ∧
           (req.horizon_days < minHorizon ∨
             maxHorizon < req.horizon_days))) :
    (∃ e, runWorkflow exec req = (.error e, [])) ∧
    (∀ depotId, optimizeRouteClick depotId [] = none) := by
  constructor
  · rcases h with ⟨h1, h2⟩ | ⟨h1, h2⟩
    · have hv : validateRequest req =
          some ⟨"routing requires a non-empty destination set"⟩ := by
        unfold validateRequest
        rw [if_pos ⟨h1, h2⟩]
      exact ⟨_, by unfold runWorkflow; rw [hv]⟩
    · by_cases hro : StepName.routing ∈ req.steps ∧ req.destinations = []
      · have hv : validateRequest req =
            some ⟨"routing requires a non-empty destination set"⟩ := by
          unfold validateRequest
          rw [if_pos hro]
        exact ⟨_, by unfold runWorkflow; rw [hv]⟩
      · have hv : validateRequest req =
            some ⟨"forecast horizon outside the supported bounds"⟩ := by
          unfold validateRequest
          rw [if_neg hro, if_pos ⟨h1, h2⟩]
        exact ⟨_, by unfold runWorkflow; rw [hv]⟩
  · intro depotId
    cases depotId <;> simp [optimizeRouteClick]

/-- C7 witness: a request asking for routing and forecasting with no
destinations aborts with a validation error and an empty invocation log. -/
theorem invalid_request_aborts_witness :
    (∃ e, runWorkflow (fun _ => .succeeded)
        ⟨[.routing, .forecasting], [], 30⟩ = (.error e, [])) ∧
    optimizeRouteClick (some 0) [] = none := by
  have h := invalid_request_aborts (fun _ => .succeeded)
    ⟨[.routing, .forecasting], [], 30⟩ (Or.inl ⟨by decide, rfl⟩)
  exact ⟨h.1, h.2 (some 0)⟩

/-- C9: the structured alert batch — alerts list and severity counts — is
identical whatever the language-summarization collaborator's outcome
(success, failure or unavailability); only the optional narrative field
reflects it.  Likewise the frontend alerts page (`loadAlerts`,
`alerts/page.tsx`) derives its alerts list and summary independently of the
response's `ai_insights` field. -/
theorem summarizer_noninterference (cfg : MonitoringConfig)
    (data : List StockInfo) (o1 o2 : SummarizerOutcome)
    (resp : AlertsResponse) (i1 i2 : Option String) :
    (buildAlertBatch cfg data o1).alerts =
      (buildAlertBatch cfg data o2).alerts ∧
    (buildAlertBatch cfg data o1).critical_count =
      (buildAlertBatch cfg data o2).critical_count ∧
    (buildAlertBatch cfg data o1).warning_count =
      (buildAlertBatch cfg data o2).warning_count ∧
    (buildAlertBatch cfg data o1).info_count =
      (buildAlertBatch cfg data o2).info_count ∧
    (buildAlertBatch cfg data o1).narrative = narrativeOf o1 ∧
    (loadAlertsView { resp with ai_insights := i1 }).1 =
      (loadAlertsView { resp with ai_insights := i2 }).1 ∧
    (loadAlertsView { resp with ai_insights := i1 }).2.1 =
      (loadAlertsView { resp with ai_insights := i2 }).2.1 :=
  ⟨rfl, rfl, rfl, rfl, rfl, rfl, rfl⟩

/-- C10: resolving the alert at an in-bounds index pointing at an unresolved
alert sets exactly that alert's `is_resolved` flag, leaves every other alert
unchanged, decrements `total_alerts` by exactly one, decrements exactly the
summary count matching that alert's severity by one, and leaves the other
two severity counts unchanged.  (The page passes an index of the displayed,
filtered list into the unfiltered array; this statement is about the index
into the unfiltered array that `resolveAlert` actually uses.) -/
theorem resolveAlert_spec (alerts : List FAlert) (summary : AlertSummary)
    (i : Fin alerts.length) (hunres : (alerts.get i).is_resolved = false) :
    (resolveAlert alerts summary i).1[i.val]? =
      some { alerts.get i with is_resolved := true } ∧
    (∀ j : Nat, j ≠ i.val →
      (resolveAlert alerts summary i).1[j]? = alerts[j]?) ∧
    (resolveAlert alerts summary i).2.total_alerts =
      summary.total_alerts - 1 ∧
    severityCount (resolveAlert alerts summary i).2 (alerts.get i).severity =
      severityCount summary (alerts.get i).severity - 1 ∧
    (∀ sev, sev ≠ (alerts.get i).severity →
      severityCount (resolveAlert alerts summary i).2 sev =
        severityCount summary sev) := by
  refine ⟨?_, ?_, rfl, ?_, ?_⟩
  · show (alerts.set i.val _)[i.val]? = _
    rw [List.getElem?_set_self i.isLt]
  · intro j hj
    show (alerts.set i.val _)[j]? = _
    rw [List.getElem?_set_ne (fun hh => hj hh.symm)]
  · cases hsev : (alerts.get i).severity <;>
      rw [List.get_eq_getElem] at hsev <;>
      simp [resolveAlert, severityCount, hsev]
  · intro sev hsev
    rw [List.get_eq_getElem] at hsev
    cases h0 : alerts[i.val].severity <;> cases sev <;>
      simp_all [resolveAlert, severityCount]

/-- C10 witness: resolving the single unresolved critical alert of a
one-element list turns its flag on and moves the summary from
`(5, 2, 2, 1)` to total 4 and critical count 1, warning count unchanged. -/
theorem resolveAlert_spec_witness :
    (resolveAlert
        [⟨.CRITICAL, "MAIN_BRANCH", "Metformin", "STOCKOUT_RISK", none, none,
          "low stock", "URGENT_ORDER", "now", false⟩]
        ⟨5, 2, 2, 1⟩ ⟨0, by decide⟩).1[0]? =
      some ⟨.CRITICAL, "MAIN_BRANCH", "Metformin", "STOCKOUT_RISK", none,
        none, "low stock", "URGENT_ORDER", "now", true⟩ ∧
    (resolveAlert
        [⟨.CRITICAL, "MAIN_BRANCH", "Metformin", "STOCKOUT_RISK", none, none,
          "low stock", "URGENT_ORDER", "now", false⟩]
        ⟨5, 2, 2, 1⟩ ⟨0, by decide⟩).2.total_alerts = 4 ∧
    severityCount
      (resolveAlert
        [⟨.CRITICAL, "MAIN_BRANCH", "Metformin", "STOCKOUT_RISK", none, none,
          "low stock", "URGENT_ORDER", "now", false⟩]
        ⟨5, 2, 2, 1⟩ ⟨0, by decide⟩).2 .CRITICAL = 1 ∧
    severityCount
      (resolveAlert
        [⟨.CRITICAL, "MAIN_BRANCH", "Metformin", "STOCKOUT_RISK", none, none,
          "low stock", "URGENT_ORDER", "now", false⟩]
        ⟨5, 2, 2, 1⟩ ⟨0, by decide⟩).2 .WARNING = 2 := by
  have h := resolveAlert_spec
    [⟨.CRITICAL, "MAIN_BRANCH", "Metformin", "STOCKOUT_RISK", none, none,
      "low stock", "URGENT_ORDER", "now", false⟩]
    ⟨5, 2, 2, 1⟩ ⟨0, by decide⟩ rfl
  exact ⟨h.1, h.2.2.1, h.2.2.2.1, h.2.2.2.2 .WARNING (by decide)⟩

end PharmaSpec
